import Mathlib

/-!
Verification development for the CoolProp C boundary (CoolPropLib.h) as used
by the rfluids coolprop-sys crate.

Part A transcribes the function signatures of the header file directly: each
declared function becomes a `CFunDecl` value recording its return type and
its parameter list (name and C type), in declaration order.

Part B models the behaviour of the AbstractState subsystem.  The repository
ships only the header (declarations); the implementation lives in the external
CoolProp library, so the behavioural definitions below are modelled from the
specification text, as marked in their doc comments.  Numeric kernels that the
spec leaves to the pluggable equation-of-state backend (flash solving,
derivative evaluation, curve tracing) enter the model as explicit oracle
arguments, so every theorem quantifies over them.
-/

namespace CoolProp

/-- C types appearing in the header signatures. -/
inductive CType where
  | cdouble
  | cvoid
  | clong
  | cint
  | cbool
  | constCharPtr
  | charPtr
  | constDoublePtr
  | doublePtr
  | longPtr
  deriving DecidableEq

/-- A C function declaration: name, return type, parameters in order. -/
structure CFunDecl where
  name : String
  ret : CType
  params : List (String × CType)
  deriving DecidableEq

/-- Transcribed from CoolPropLib.h line 62. -/
def Props1SI_decl : CFunDecl :=
  { name := "Props1SI", ret := .cdouble,
    params := [("FluidName", .constCharPtr), ("Output", .constCharPtr)] }

/-- Transcribed from CoolPropLib.h lines 69 to 70. -/
def PropsSI_decl : CFunDecl :=
  { name := "PropsSI", ret := .cdouble,
    params := [("Output", .constCharPtr), ("Name1", .constCharPtr), ("Prop1", .cdouble),
               ("Name2", .constCharPtr), ("Prop2", .cdouble), ("FluidName", .constCharPtr)] }

/-- Transcribed from CoolPropLib.h lines 127 to 129. -/
def HAPropsSI_decl : CFunDecl :=
  { name := "HAPropsSI", ret := .cdouble,
    params := [("Output", .constCharPtr), ("Name1", .constCharPtr), ("Prop1", .cdouble),
               ("Name2", .constCharPtr), ("Prop2", .cdouble), ("Name3", .constCharPtr),
               ("Prop3", .cdouble)] }

/-- Transcribed from CoolPropLib.h line 92. -/
def set_config_string_decl : CFunDecl :=
  { name := "set_config_string", ret := .cvoid,
    params := [("key", .constCharPtr), ("val", .constCharPtr)] }

/-- Transcribed from CoolPropLib.h line 94. -/
def set_config_double_decl : CFunDecl :=
  { name := "set_config_double", ret := .cvoid,
    params := [("key", .constCharPtr), ("val", .cdouble)] }

/-- Transcribed from CoolPropLib.h line 96. -/
def set_config_bool_decl : CFunDecl :=
  { name := "set_config_bool", ret := .cvoid,
    params := [("key", .constCharPtr), ("val", .cbool)] }

/-- Transcribed from CoolPropLib.h lines 145 to 147. -/
def AbstractState_factory_decl : CFunDecl :=
  { name := "AbstractState_factory", ret := .clong,
    params := [("backend", .constCharPtr), ("fluids", .constCharPtr),
               ("errcode", .longPtr), ("message_buffer", .charPtr),
               ("buffer_length", .clong)] }

/-- Transcribed from CoolPropLib.h lines 153 to 154. -/
def AbstractState_free_decl : CFunDecl :=
  { name := "AbstractState_free", ret := .cvoid,
    params := [("handle", .clong), ("errcode", .longPtr),
               ("message_buffer", .charPtr), ("buffer_length", .clong)] }

/-- Transcribed from CoolPropLib.h lines 179 to 182. -/
def AbstractState_update_decl : CFunDecl :=
  { name := "AbstractState_update", ret := .cvoid,
    params := [("handle", .clong), ("input_pair", .clong), ("value1", .cdouble),
               ("value2", .cdouble), ("errcode", .longPtr),
               ("message_buffer", .charPtr), ("buffer_length", .clong)] }

/-- Transcribed from CoolPropLib.h lines 192 to 194. -/
def AbstractState_keyed_output_decl : CFunDecl :=
  { name := "AbstractState_keyed_output", ret := .cdouble,
    params := [("handle", .clong), ("param", .clong), ("errcode", .longPtr),
               ("message_buffer", .charPtr), ("buffer_length", .clong)] }

/-- A declaration exposes the uniform error channel iff its parameter list
contains the errcode out-slot and the message buffer with its capacity. -/
def hasErrorChannel (d : CFunDecl) : Bool :=
  d.params.contains ("errcode", CType.longPtr)
    && d.params.contains ("message_buffer", CType.charPtr)
    && d.params.contains ("buffer_length", CType.clong)

/-- Modelled from the spec: the error taxonomy of section 7.  The
implementation behind the header is not in the repository, so the codes are
modelled from the spec taxonomy. -/
inductive ErrorCode where
  | success
  | invalidHandle
  | unknownBackend
  | invalidFluidSpec
  | invalidInputPair
  | invalidInput
  | convergenceFailure
  | notUpdated
  | notSinglePhase
  | notTwoPhase
  | unsupportedDerivative
  | unsupportedParameter
  | indexOutOfRange
  | sizeMismatch
  | curveTraceFailure
  | internalInvariantViolation
  deriving DecidableEq

/-- Modelled from the spec: the numeric value written into the errcode slot,
0 for success and a distinct non-zero value for each failure kind. -/
def ErrorCode.toLong : ErrorCode → Int
  | .success => 0
  | .invalidHandle => 1
  | .unknownBackend => 2
  | .invalidFluidSpec => 3
  | .invalidInputPair => 4
  | .invalidInput => 5
  | .convergenceFailure => 6
  | .notUpdated => 7
  | .notSinglePhase => 8
  | .notTwoPhase => 9
  | .unsupportedDerivative => 10
  | .unsupportedParameter => 11
  | .indexOutOfRange => 12
  | .sizeMismatch => 13
  | .curveTraceFailure => 14
  | .internalInvariantViolation => 15

/-- Modelled from the spec: the human-readable message paired with a code,
as a byte sequence. -/
def ErrorCode.messageBytes (c : ErrorCode) : List Nat :=
  (String.toList (match c with
    | .success => ""
    | .invalidHandle => "invalid handle"
    | .unknownBackend => "unknown backend"
    | .invalidFluidSpec => "invalid fluid specification"
    | .invalidInputPair => "invalid input pair"
    | .invalidInput => "invalid input value"
    | .convergenceFailure => "convergence failure"
    | .notUpdated => "state has not been updated"
    | .notSinglePhase => "state is not single phase"
    | .notTwoPhase => "state is not two phase"
    | .unsupportedDerivative => "unsupported derivative"
    | .unsupportedParameter => "unsupported parameter"
    | .indexOutOfRange => "index out of range"
    | .sizeMismatch => "size mismatch"
    | .curveTraceFailure => "curve trace failure"
    | .internalInvariantViolation => "internal invariant violation")).map Char.toNat

/-- Modelled from the spec, section 4.1: writing a message into a
caller-owned buffer of capacity `cap` bytes truncates the message so that it
fits together with its zero terminator, and writes nothing when the capacity
is zero. -/
def writeMessage (msg : List Nat) (cap : Nat) : List Nat :=
  if cap = 0 then [] else msg.take (cap - 1) ++ [0]

/-- Modelled from the spec, section 4.1: what one call writes into the
message buffer: nothing on success, the truncated zero-terminated message of
the code on failure. -/
def finishBuffer (c : ErrorCode) (cap : Nat) : List Nat :=
  if c = .success then [] else writeMessage c.messageBytes cap

/-- A C double at the boundary: either a finite value (modelled as a
rational) or one of the non-finite values. -/
inductive CReal where
  | finite (q : ℚ)
  | nan
  | posInf
  | negInf
  deriving DecidableEq

/-- Modelled from the spec: the semantic property keys used by keyed output
and input pairs (temperature, pressure, molar density, molar enthalpy, molar
entropy, vapor quality). -/
inductive PropertyKey where
  | iT
  | iP
  | iDmolar
  | iHmolar
  | iSmolar
  | iQ
  deriving DecidableEq

/-- Modelled from the spec: the stable integer index of a property key, as
resolved once through get_param_index. -/
def encodeParam : PropertyKey → Int
  | .iT => 1
  | .iP => 2
  | .iDmolar => 3
  | .iHmolar => 4
  | .iSmolar => 5
  | .iQ => 6

/-- Modelled from the spec: recovering a property key from its stable
integer index; indices outside the enumeration are rejected. -/
def decodeParam (n : Int) : Option PropertyKey :=
  if n = 1 then some .iT
  else if n = 2 then some .iP
  else if n = 3 then some .iDmolar
  else if n = 4 then some .iHmolar
  else if n = 5 then some .iSmolar
  else if n = 6 then some .iQ
  else none

/-- Modelled from the spec: the implemented input pairs, each a pair of
semantic property keys selecting a flash branch. -/
inductive InputPair where
  | QT_inputs
  | PQ_inputs
  | PT_inputs
  | DmolarT_inputs
  | HmolarP_inputs
  | PSmolar_inputs
  deriving DecidableEq

/-- The two semantic property keys of an input pair. -/
def InputPair.keys : InputPair → PropertyKey × PropertyKey
  | .QT_inputs => (.iQ, .iT)
  | .PQ_inputs => (.iP, .iQ)
  | .PT_inputs => (.iP, .iT)
  | .DmolarT_inputs => (.iDmolar, .iT)
  | .HmolarP_inputs => (.iHmolar, .iP)
  | .PSmolar_inputs => (.iP, .iSmolar)

/-- Modelled from the spec: recovering an input pair from its stable integer
index; combinations outside the implemented set are rejected, which the
update operation reports as InvalidInputPair. -/
def decodeInputPair (n : Int) : Option InputPair :=
  if n = 1 then some .QT_inputs
  else if n = 2 then some .PQ_inputs
  else if n = 3 then some .PT_inputs
  else if n = 4 then some .DmolarT_inputs
  else if n = 5 then some .HmolarP_inputs
  else if n = 6 then some .PSmolar_inputs
  else none

/-- Phase label of an equilibrium state, or a phase imposed on a handle. -/
inductive Phase where
  | liquid
  | gas
  | supercritical
  | twophase
  deriving DecidableEq

/-- Modelled from the spec, section 3: the converged thermodynamic point:
temperature, pressure, molar density, molar enthalpy, molar entropy, phase
label and vapor quality (meaningful in the two-phase region). -/
structure EquilibriumState where
  T : ℚ
  p : ℚ
  rhomolar : ℚ
  hmolar : ℚ
  smolar : ℚ
  phase : Phase
  quality : ℚ
  deriving DecidableEq

/-- Reading one keyed property out of a converged equilibrium state. -/
def query (es : EquilibriumState) : PropertyKey → ℚ
  | .iT => es.T
  | .iP => es.p
  | .iDmolar => es.rhomolar
  | .iHmolar => es.hmolar
  | .iSmolar => es.smolar
  | .iQ => es.quality

/-- One sample point of a phase envelope: temperature, pressure, vapor and
liquid molar densities, and the two phase composition vectors. -/
structure EnvPoint where
  T : ℚ
  p : ℚ
  rhomolar_vap : ℚ
  rhomolar_liq : ℚ
  x : List ℚ
  y : List ℚ
  deriving DecidableEq

/-- Modelled from the spec: a built phase envelope: its ordered sample
points and the component count of the composition it was built for. -/
structure PhaseEnvelope where
  points : List EnvPoint
  ncomp : Nat
  deriving DecidableEq

/-- Modelled from the spec, section 3: the object behind one handle: its
backend name, component names, mole fractions, optional imposed phase, the
current converged equilibrium state (none while unconverged), and the cached
phase envelope. -/
structure StateObject where
  backend : String
  fluids : List String
  fractions : List ℚ
  phaseSpec : Option Phase
  eqState : Option EquilibriumState
  envelope : Option PhaseEnvelope
  deriving DecidableEq

/-- Modelled from the spec, section 4.2: the handle registry: a monotonic
next-handle counter and the map from live handles to their objects. -/
structure Registry where
  nextHandle : Int
  objects : List (Int × StateObject)
  deriving DecidableEq

/-- The empty registry, before any handle was issued. -/
def Registry.empty : Registry :=
  { nextHandle := 0, objects := [] }

/-- Single point of handle validation: the object a handle maps to, if any. -/
def Registry.lookup (r : Registry) (h : Int) : Option StateObject :=
  (r.objects.find? (fun e => e.1 == h)).map (fun e => e.2)

/-- Replace the object stored under a live handle. -/
def Registry.setObj (r : Registry) (h : Int) (so : StateObject) : Registry :=
  { r with objects := r.objects.map (fun e => if e.1 == h then (e.1, so) else e) }

/-- Remove a handle and its object from the registry. -/
def Registry.erase (r : Registry) (h : Int) : Registry :=
  { r with objects := r.objects.filter (fun e => !(e.1 == h)) }

/-- What one boundary call produces: the registry afterwards, the error code
written to the errcode slot, the bytes written to the message buffer, and
the returned value. -/
structure Outcome (α : Type) where
  reg : Registry
  errcode : ErrorCode
  buffer : List Nat
  value : α
  deriving DecidableEq

/-- Every boundary wrapper finishes through this single function, so the
message buffer contents are always finishBuffer of the error code. -/
def mkOutcome {α : Type} (reg : Registry) (c : ErrorCode) (cap : Nat) (v : α) : Outcome α :=
  { reg := reg, errcode := c, buffer := finishBuffer c cap, value := v }

/-- Modelled from the spec, section 4.3: the solver for one flash branch is
a black-box capability of the pluggable equation-of-state backend.  It sees
the component names, the fractions, the imposed phase and the two inputs,
and yields a candidate equilibrium state, or none when its bounded iteration
count is exhausted.  It does not see the previous equilibrium state: each
flash is independent. -/
def FlashSolver : Type :=
  List String → List ℚ → Option Phase → InputPair → ℚ → ℚ → Option EquilibriumState

/-- Modelled from the spec, section 4.3: the relative-residual tolerance of
the flash convergence test. -/
def flashTol : ℚ := 1 / 1000000

/-- Absolute value of a rational, written out explicitly. -/
def ratAbs (q : ℚ) : ℚ :=
  if q < 0 then -q else q

/-- The larger of two rationals, written out explicitly. -/
def ratMax (a b : ℚ) : ℚ :=
  if a ≤ b then b else a

/-- x is within relative tolerance tol of the requested value v. -/
def relClose (tol x v : ℚ) : Bool :=
  decide (ratAbs (x - v) ≤ tol * ratMax 1 (ratAbs v))

/-- Modelled from the spec: temperature, pressure and density inputs must be
positive where physically required. -/
def keyRequiresPositive : PropertyKey → Bool
  | .iT => true
  | .iP => true
  | .iDmolar => true
  | _ => false

/-- A finite input value passes the domain check of its key. -/
def keyPositiveOk (k : PropertyKey) (q : ℚ) : Bool :=
  !(keyRequiresPositive k) || decide (0 < q)

/-- The value is finite and passes the domain check of its key. -/
def CReal.validFor (k : PropertyKey) : CReal → Bool
  | .finite q => keyPositiveOk k q
  | _ => false

/-- The rational behind a finite boundary value (0 for non-finite ones,
which never pass validation). -/
def CReal.toRat : CReal → ℚ
  | .finite q => q
  | _ => 0

/-- Modelled from the spec, sections 4.3 and 8: a candidate state is
accepted as converged when both requested inputs are reproduced within the
relative-residual tolerance and, in the two-phase region, the vapor quality
lies in the unit interval. -/
def acceptState (pair : InputPair) (v1 v2 : ℚ) (es : EquilibriumState) : Bool :=
  relClose flashTol (query es pair.keys.1) v1
    && relClose flashTol (query es pair.keys.2) v2
    && (!(es.phase == .twophase) || decide (0 ≤ es.quality ∧ es.quality ≤ 1))

/-- Modelled from the spec, section 4.3: one independent flash for one input
point: validate finiteness and positivity before any solver iteration, run
the backend solver, and accept its candidate only if converged. -/
def singleFlash (σ : FlashSolver) (so : StateObject) (pair : InputPair)
    (v1 v2 : CReal) : Except ErrorCode EquilibriumState :=
  if v1.validFor pair.keys.1 && v2.validFor pair.keys.2 then
    match σ so.fluids so.fractions so.phaseSpec pair v1.toRat v2.toRat with
    | some es =>
      if acceptState pair v1.toRat v2.toRat es then .ok es
      else .error .convergenceFailure
    | none => .error .convergenceFailure
  else .error .invalidInput

/-- Modelled from the spec, section 4.2: backend names are resolved against
a fixed registry of known backends. -/
def knownBackends : List String := ["HEOS", "REFPROP", "SRK", "PR"]

/-- Fluid lists at the boundary are delimited component names. -/
def parseFluids (s : String) : List String := s.splitOn "&"

/-- Modelled from the spec: syntactic validity of one component name. -/
def validFluidName (s : String) : Bool := !(s.isEmpty)

/-- Modelled from the spec, section 4.2: create validates the backend name
and the fluid specification, allocates an unconverged object and assigns the
fresh monotonic handle, never reusing a released one. -/
def factoryCore (r : Registry) (backend fluids : String) : Registry × ErrorCode × Int :=
  if knownBackends.contains backend then
    let fl := parseFluids fluids
    if fl.all validFluidName then
      let h := r.nextHandle
      let so : StateObject :=
        { backend := backend, fluids := fl,
          fractions := List.replicate fl.length (1 / (fl.length : ℚ)),
          phaseSpec := none, eqState := none, envelope := none }
      ({ nextHandle := h + 1, objects := (h, so) :: r.objects }, .success, h)
    else (r, .invalidFluidSpec, -1)
  else (r, .unknownBackend, -1)

/-- Modelled from the spec, section 4.2: release removes the handle; a
handle that is not live fails with InvalidHandle and mutates nothing. -/
def freeCore (r : Registry) (h : Int) : Registry × ErrorCode :=
  match r.lookup h with
  | none => (r, .invalidHandle)
  | some _ => (r.erase h, .success)

/-- Modelled from the spec, sections 4.3 and 7: update resolves the handle
and the input pair, runs one independent flash, and on success overwrites
the stored equilibrium state; on any failure the registry is untouched. -/
def updateCore (σ : FlashSolver) (r : Registry) (h : Int) (pairIdx : Int)
    (v1 v2 : CReal) : Registry × ErrorCode :=
  match r.lookup h with
  | none => (r, .invalidHandle)
  | some so =>
    match decodeInputPair pairIdx with
    | none => (r, .invalidInputPair)
    | some pair =>
      match singleFlash σ so pair v1 v2 with
      | .ok es => (r.setObj h { so with eqState := some es }, .success)
      | .error c => (r, c)

/-- Modelled from the spec, section 4.4: keyed output requires a converged
state, else NotUpdated; it then reads the property out of the equilibrium
state without re-solving.  The value slot holds a sentinel 0 alongside any
non-zero code. -/
def keyedOutputCore (r : Registry) (h : Int) (paramIdx : Int) : ErrorCode × ℚ :=
  match r.lookup h with
  | none => (.invalidHandle, 0)
  | some so =>
    match so.eqState with
    | none => (.notUpdated, 0)
    | some es =>
      match decodeParam paramIdx with
      | none => (.unsupportedParameter, 0)
      | some k => (.success, query es k)

/-- Modelled from the spec, section 4.6: the tolerance on the fraction sum. -/
def fracTol : ℚ := 1 / 1000

/-- Modelled from the spec, section 4.6: fractions must be positive and sum
to one within tolerance. -/
def validFractions (fr : List ℚ) : Bool :=
  fr.all (fun q => decide (0 < q)) && relClose fracTol fr.sum 1

/-- Modelled from the spec, section 4.6: set_fractions validates length and
positivity and sum constraints, replaces the composition, and invalidates
the cached equilibrium state and cached curves.  The spec does not name the
code for a constraint violation; the model uses InvalidInput. -/
def setFractionsCore (r : Registry) (h : Int) (fr : List ℚ) : Registry × ErrorCode :=
  match r.lookup h with
  | none => (r, .invalidHandle)
  | some so =>
    if fr.length == so.fluids.length && validFractions fr then
      (r.setObj h { so with fractions := fr, eqState := none, envelope := none }, .success)
    else (r, .invalidInput)

/-- Modelled from the spec, section 4.4: the analytic or differenced partial
derivative at a converged state is a backend capability; none means the
backend cannot provide it. -/
def DerivOracle : Type :=
  EquilibriumState → PropertyKey → PropertyKey → PropertyKey → Option ℚ

/-- Modelled from the spec, section 4.4: first_partial_deriv requires a
converged state (else NotUpdated) and a single-phase state (else
NotSinglePhase), then consults the backend; an unavailable derivative fails
with UnsupportedDerivative, never a silent number. -/
def firstPartialDerivCore (δ : DerivOracle) (r : Registry) (h : Int)
    (ofIdx wrtIdx constIdx : Int) : ErrorCode × ℚ :=
  match r.lookup h with
  | none => (.invalidHandle, 0)
  | some so =>
    match so.eqState with
    | none => (.notUpdated, 0)
    | some es =>
      match decodeParam ofIdx, decodeParam wrtIdx, decodeParam constIdx with
      | some kOf, some kWrt, some kConst =>
        if es.phase == .twophase then (.notSinglePhase, 0)
        else
          match δ es kOf kWrt kConst with
          | some v => (.success, v)
          | none => (.unsupportedDerivative, 0)
      | _, _, _ => (.unsupportedParameter, 0)

/-- Modelled from the spec, section 4.5: the continuation tracer for the
phase envelope is a backend capability; none means a non-convergent segment
aborted the whole build. -/
def Tracer : Type := List String → List ℚ → String → Option (List EnvPoint)

/-- Modelled from the spec, sections 4.5 and 8: build_phase_envelope
requires a live handle and a converged state, traces the envelope, and
caches it with the component count; a trace failure exposes no partial
curve. -/
def buildPhaseEnvelopeCore (τ : Tracer) (r : Registry) (h : Int) (level : String) :
    Registry × ErrorCode :=
  match r.lookup h with
  | none => (r, .invalidHandle)
  | some so =>
    match so.eqState with
    | none => (r, .notUpdated)
    | some _ =>
      match τ so.fluids so.fractions level with
      | some pts =>
        (r.setObj h { so with envelope := some { points := pts, ncomp := so.fluids.length } },
         .success)
      | none => (r, .curveTraceFailure)

/-- The arrays written back by the phase envelope retrieval calls. -/
structure EnvelopeData where
  T : List ℚ
  p : List ℚ
  rhomolar_vap : List ℚ
  rhomolar_liq : List ℚ
  x : List (List ℚ)
  y : List (List ℚ)
  deriving DecidableEq

/-- Nothing written: the empty envelope data. -/
def EnvelopeData.empty : EnvelopeData :=
  { T := [], p := [], rhomolar_vap := [], rhomolar_liq := [], x := [], y := [] }

/-- Fill envelope data from a list of sample points, truncating each
composition vector to at most maxComp entries. -/
def envelopeDataOf (pts : List EnvPoint) (maxComp : Nat) : EnvelopeData :=
  { T := pts.map (fun pt => pt.T),
    p := pts.map (fun pt => pt.p),
    rhomolar_vap := pts.map (fun pt => pt.rhomolar_vap),
    rhomolar_liq := pts.map (fun pt => pt.rhomolar_liq),
    x := pts.map (fun pt => pt.x.take maxComp),
    y := pts.map (fun pt => pt.y.take maxComp) }

/-- Modelled from the spec, section 4.5: the declared length must match the
stored sample count exactly, else the call fails with SizeMismatch and
writes no data.  The spec does not name the code for an unbuilt envelope;
the model uses NotUpdated. -/
def getPhaseEnvelopeDataCore (r : Registry) (h : Int) (len : Int) :
    ErrorCode × EnvelopeData :=
  match r.lookup h with
  | none => (.invalidHandle, .empty)
  | some so =>
    match so.envelope with
    | none => (.notUpdated, .empty)
    | some env =>
      if len == (env.points.length : Int) then
        (.success, envelopeDataOf env.points env.ncomp)
      else (.sizeMismatch, .empty)

/-- Modelled from the spec, section 4.5: the checked variant accepts
explicit capacities, truncates rather than overruns when a capacity is
insufficient, and reports the actual stored sample count and component
count through its out-parameters. -/
def getPhaseEnvelopeDataCheckedCore (r : Registry) (h : Int) (len maxComp : Int) :
    ErrorCode × EnvelopeData × Int × Int :=
  match r.lookup h with
  | none => (.invalidHandle, .empty, 0, 0)
  | some so =>
    match so.envelope with
    | none => (.notUpdated, .empty, 0, 0)
    | some env =>
      (.success, envelopeDataOf (env.points.take len.toNat) (min maxComp.toNat env.ncomp),
       (env.points.length : Int), (env.ncomp : Int))

/-- The error code carried by one per-entry flash result. -/
def entryCode {α : Type} : Except ErrorCode α → ErrorCode
  | .ok _ => .success
  | .error c => c

/-- Modelled from the spec, section 4.3: the overall code of a batch call is
the first error code encountered, or success when every entry succeeded. -/
def firstErrorCode : List ErrorCode → ErrorCode
  | [] => .success
  | c :: cs => if c = .success then firstErrorCode cs else c

/-- The equilibrium state left on the object by a batch call: that of the
last successful entry, if any. -/
def lastSuccessState (l : List (Except ErrorCode EquilibriumState)) :
    Option EquilibriumState :=
  l.foldl (fun acc e => match e with | .ok es => some es | .error _ => acc) none

/-- Modelled from the spec, section 4.3: the common batch machinery behind
update_and_1_out, update_and_5_out and update_and_common_out: for each input
point an independent flash is run; a failing entry is recorded as none and
does not abort the remaining entries; a succeeding entry immediately yields
the requested keyed outputs; the overall code is the first error
encountered; the object keeps the state of the last successful entry. -/
def batchCore (σ : FlashSolver) (r : Registry) (h : Int) (pairIdx : Int)
    (v1s v2s : List CReal) (outs : List PropertyKey) :
    Registry × ErrorCode × List (Option (List ℚ)) :=
  match r.lookup h with
  | none => (r, .invalidHandle, [])
  | some so =>
    match decodeInputPair pairIdx with
    | none => (r, .invalidInputPair, [])
    | some pair =>
      let flashes := (v1s.zip v2s).map (fun vv => singleFlash σ so pair vv.1 vv.2)
      let results := flashes.map (fun e =>
        match e with
        | .ok es => some (outs.map (query es))
        | .error _ => none)
      let code := firstErrorCode (flashes.map entryCode)
      let r2 := match lastSuccessState flashes with
        | some es => r.setObj h { so with eqState := some es }
        | none => r
      (r2, code, results)

/-- Modelled from the spec: update_and_1_out extracts one keyed output per
successful entry.  The handle is validated first (spec section 4.2: lookup
is the single point of validation used by every operation), then the output
key is decoded. -/
def update_and_1_outCore (σ : FlashSolver) (r : Registry) (h : Int) (pairIdx : Int)
    (v1s v2s : List CReal) (outIdx : Int) :
    Registry × ErrorCode × List (Option ℚ) :=
  match r.lookup h with
  | none => (r, .invalidHandle, [])
  | some _ =>
    match decodeParam outIdx with
    | none => (r, .unsupportedParameter, [])
    | some k =>
      let rc := batchCore σ r h pairIdx v1s v2s [k]
      (rc.1, rc.2.1, rc.2.2.map (fun o => o.map (fun qs => qs.headD 0)))

/-- The five common outputs written by update_and_common_out. -/
def commonOutKeys : List PropertyKey := [.iT, .iP, .iDmolar, .iHmolar, .iSmolar]

/-- Modelled from the spec: update_and_common_out extracts temperature,
pressure, molar density, molar enthalpy and molar entropy per successful
entry. -/
def update_and_common_outCore (σ : FlashSolver) (r : Registry) (h : Int)
    (pairIdx : Int) (v1s v2s : List CReal) :
    Registry × ErrorCode × List (Option (List ℚ)) :=
  batchCore σ r h pairIdx v1s v2s commonOutKeys

/-- Modelled from the spec: update_and_5_out extracts five caller-chosen
keyed outputs per successful entry.  The handle is validated first (spec
section 4.2: lookup is the single point of validation used by every
operation), then the output keys are decoded. -/
def update_and_5_outCore (σ : FlashSolver) (r : Registry) (h : Int) (pairIdx : Int)
    (v1s v2s : List CReal) (outIdxs : List Int) :
    Registry × ErrorCode × List (Option (List ℚ)) :=
  match r.lookup h with
  | none => (r, .invalidHandle, [])
  | some _ =>
    match outIdxs.mapM decodeParam with
    | none => (r, .unsupportedParameter, [])
    | some ks => batchCore σ r h pairIdx v1s v2s ks

/-- Boundary wrapper for AbstractState_factory: core step, then the uniform
error channel. -/
def AbstractState_factory (r : Registry) (backend fluids : String) (cap : Nat) :
    Outcome Int :=
  let rc := factoryCore r backend fluids
  mkOutcome rc.1 rc.2.1 cap rc.2.2

/-- Boundary wrapper for AbstractState_free. -/
def AbstractState_free (r : Registry) (h : Int) (cap : Nat) : Outcome Unit :=
  let rc := freeCore r h
  mkOutcome rc.1 rc.2 cap ()

/-- Boundary wrapper for AbstractState_update. -/
def AbstractState_update (σ : FlashSolver) (r : Registry) (h : Int) (pairIdx : Int)
    (v1 v2 : CReal) (cap : Nat) : Outcome Unit :=
  let rc := updateCore σ r h pairIdx v1 v2
  mkOutcome rc.1 rc.2 cap ()

/-- Boundary wrapper for AbstractState_keyed_output; pure query, so the
registry is returned unchanged. -/
def AbstractState_keyed_output (r : Registry) (h : Int) (paramIdx : Int) (cap : Nat) :
    Outcome ℚ :=
  let rc := keyedOutputCore r h paramIdx
  mkOutcome r rc.1 cap rc.2

/-- Boundary wrapper for AbstractState_set_fractions. -/
def AbstractState_set_fractions (r : Registry) (h : Int) (fr : List ℚ) (cap : Nat) :
    Outcome Unit :=
  let rc := setFractionsCore r h fr
  mkOutcome rc.1 rc.2 cap ()

/-- Boundary wrapper for AbstractState_first_partial_deriv. -/
def AbstractState_first_partial_deriv (δ : DerivOracle) (r : Registry) (h : Int)
    (ofIdx wrtIdx constIdx : Int) (cap : Nat) : Outcome ℚ :=
  let rc := firstPartialDerivCore δ r h ofIdx wrtIdx constIdx
  mkOutcome r rc.1 cap rc.2

/-- Boundary wrapper for AbstractState_build_phase_envelope. -/
def AbstractState_build_phase_envelope (τ : Tracer) (r : Registry) (h : Int)
    (level : String) (cap : Nat) : Outcome Unit :=
  let rc := buildPhaseEnvelopeCore τ r h level
  mkOutcome rc.1 rc.2 cap ()

/-- Boundary wrapper for AbstractState_get_phase_envelope_data. -/
def AbstractState_get_phase_envelope_data (r : Registry) (h : Int) (len : Int)
    (cap : Nat) : Outcome EnvelopeData :=
  let rc := getPhaseEnvelopeDataCore r h len
  mkOutcome r rc.1 cap rc.2

/-- Boundary wrapper for AbstractState_get_phase_envelope_data_checkedMemory. -/
def AbstractState_get_phase_envelope_data_checkedMemory (r : Registry) (h : Int)
    (len maxComp : Int) (cap : Nat) : Outcome (EnvelopeData × Int × Int) :=
  let rc := getPhaseEnvelopeDataCheckedCore r h len maxComp
  mkOutcome r rc.1 cap rc.2

/-- Boundary wrapper for AbstractState_update_and_1_out. -/
def AbstractState_update_and_1_out (σ : FlashSolver) (r : Registry) (h : Int)
    (pairIdx : Int) (v1s v2s : List CReal) (outIdx : Int) (cap : Nat) :
    Outcome (List (Option ℚ)) :=
  let rc := update_and_1_outCore σ r h pairIdx v1s v2s outIdx
  mkOutcome rc.1 rc.2.1 cap rc.2.2

/-- Boundary wrapper for AbstractState_update_and_common_out. -/
def AbstractState_update_and_common_out (σ : FlashSolver) (r : Registry) (h : Int)
    (pairIdx : Int) (v1s v2s : List CReal) (cap : Nat) :
    Outcome (List (Option (List ℚ))) :=
  let rc := update_and_common_outCore σ r h pairIdx v1s v2s
  mkOutcome rc.1 rc.2.1 cap rc.2.2

/-- Boundary wrapper for AbstractState_update_and_5_out. -/
def AbstractState_update_and_5_out (σ : FlashSolver) (r : Registry) (h : Int)
    (pairIdx : Int) (v1s v2s : List CReal) (outIdxs : List Int) (cap : Nat) :
    Outcome (List (Option (List ℚ))) :=
  let rc := update_and_5_outCore σ r h pairIdx v1s v2s outIdxs
  mkOutcome rc.1 rc.2.1 cap rc.2.2

/-- Modelled from the spec, sections 4.3 and 5: the shape of every
iterative numeric loop in the model: it consumes explicit fuel and also
reports how many steps it took, so the step count is bounded by the fuel by
construction. -/
def boundedIterate (step : ℚ → ℚ) (done : ℚ → Bool) : Nat → ℚ → ℚ × Nat
  | 0, x => (x, 0)
  | fuel + 1, x =>
    if done x then (x, 0)
    else
      let rec_result := boundedIterate step done fuel (step x)
      (rec_result.1, rec_result.2 + 1)

/-- The two control states of the powerpc assert handler of CoolPropLib.h
lines 56 to 59: inside its while loop, or returned from the function. -/
inductive AssertState where
  | looping
  | returned
  deriving DecidableEq

/-- One execution step of the handler body.  The loop `while (1) ;` has a
constant true guard and an empty body, so a step from the looping state
stays in the looping state, and the returned state is never entered. -/
def assertStep : AssertState → AssertState
  | .looping => .looping
  | .returned => .returned

/-- The control state of the powerpc __assert handler after n execution
steps, starting at loop entry. -/
def assertRun : Nat → AssertState
  | 0 => .looping
  | n + 1 => assertStep (assertRun n)

/-- Whether the powerpc __assert handler has returned within n steps. -/
def assertReturnsWithin (n : Nat) : Bool :=
  assertRun n == .returned

/-- A concrete gas-phase equilibrium state used to instantiate the oracle
arguments on concrete inputs. -/
def baseState : EquilibriumState :=
  { T := 300, p := 101325, rhomolar := 40, hmolar := 1000, smolar := 50,
    phase := .gas, quality := 0 }

/-- Overwrite one keyed property of an equilibrium state. -/
def setKey (es : EquilibriumState) (k : PropertyKey) (v : ℚ) : EquilibriumState :=
  match k with
  | .iT => { es with T := v }
  | .iP => { es with p := v }
  | .iDmolar => { es with rhomolar := v }
  | .iHmolar => { es with hmolar := v }
  | .iSmolar => { es with smolar := v }
  | .iQ => { es with quality := v }

/-- A concrete solver instance: it echoes the two requested inputs into the
matching fields of the base state, so its candidate always passes the
convergence test. -/
def demoSolver : FlashSolver := fun _ _ _ pair q1 q2 =>
  some (setKey (setKey baseState pair.keys.1 q1) pair.keys.2 q2)

/-- A concrete derivative oracle instance. -/
def demoDeriv : DerivOracle := fun es kOf _ _ => some (query es kOf)

/-- A concrete envelope point. -/
def demoPoint : EnvPoint :=
  { T := 300, p := 100000, rhomolar_vap := 1, rhomolar_liq := 10, x := [1], y := [1] }

/-- A concrete tracer instance producing a one-point envelope. -/
def demoTracer : Tracer := fun _ _ _ => some [demoPoint]

/-- A concrete unconverged state object under handle 0. -/
def demoObj : StateObject :=
  { backend := "HEOS", fluids := ["Water"], fractions := [1],
    phaseSpec := none, eqState := none, envelope := none }

/-- A concrete registry holding demoObj under handle 0. -/
def demoReg : Registry :=
  { nextHandle := 1, objects := [(0, demoObj)] }

/-- A concrete converged state object under handle 0, with a built
one-point envelope for one component. -/
def demoEnvObj : StateObject :=
  { backend := "HEOS", fluids := ["Water"], fractions := [1],
    phaseSpec := none, eqState := some baseState,
    envelope := some { points := [demoPoint], ncomp := 1 } }

/-- A concrete registry holding demoEnvObj under handle 0. -/
def demoEnvReg : Registry :=
  { nextHandle := 1, objects := [(0, demoEnvObj)] }

/-- A declaration mentions the error reporting parameters iff a parameter
is named errcode or message_buffer. -/
def mentionsErrorParams (d : CFunDecl) : Bool :=
  d.params.any (fun pr => pr.1 == "errcode" || pr.1 == "message_buffer")

/-- Decoding is a retraction of encoding on property keys. -/
theorem decode_encode (k : PropertyKey) : decodeParam (encodeParam k) = some k := by
  cases k <;> rfl

/-- Replacing the object under a live handle is visible to lookup, and does
not create an entry for a dead handle. -/
theorem lookup_setObj (r : Registry) (h : Int) (so : StateObject) :
    (r.setObj h so).lookup h = (r.lookup h).map (fun _ => so) := by
  unfold Registry.lookup Registry.setObj
  rw [List.find?_map]
  have hpred : ((fun (e : Int × StateObject) => e.1 == h) ∘
      (fun (e : Int × StateObject) => if e.1 == h then (e.1, so) else e))
      = (fun (e : Int × StateObject) => e.1 == h) := by
    funext e
    by_cases hc : e.1 = h
    · simp [hc]
    · simp [hc]
  rw [hpred]
  cases hf : r.objects.find? (fun e => e.1 == h) with
  | none => simp
  | some e =>
    have hpe : e.1 = h := by simpa using List.find?_some hf
    simp [hpe]

/-- After erasing a handle it no longer resolves. -/
theorem lookup_erase (r : Registry) (h : Int) : (r.erase h).lookup h = none := by
  unfold Registry.lookup Registry.erase
  have hnone : (r.objects.filter (fun e => !(e.1 == h))).find? (fun e => e.1 == h) = none := by
    rw [List.find?_eq_none]
    intro x hx
    have hm := List.mem_filter.mp hx
    simp only [Bool.not_eq_true'] at hm
    simp [hm.2]
  rw [hnone]
  rfl

/-- A failed update leaves the whole registry untouched. -/
theorem updateCore_fail_preserves (σ : FlashSolver) (r : Registry) (h pairIdx : Int)
    (v1 v2 : CReal) (hf : (updateCore σ r h pairIdx v1 v2).2 ≠ .success) :
    (updateCore σ r h pairIdx v1 v2).1 = r := by
  unfold updateCore at hf ⊢
  cases hr : r.lookup h with
  | none => simp [hr]
  | some so =>
    cases hp : decodeInputPair pairIdx with
    | none => simp [hr, hp]
    | some pair =>
      cases hs : singleFlash σ so pair v1 v2 with
      | ok es => simp [hr, hp, hs] at hf
      | error c => simp [hr, hp, hs]

/-- A successful create reaches its fresh object through the issued handle,
and that object is unconverged. -/
theorem factory_fresh (r : Registry) (b f : String)
    (hs : (factoryCore r b f).2.1 = .success) :
    ∃ so, (factoryCore r b f).1.lookup (factoryCore r b f).2.2 = some so ∧
      so.eqState = none := by
  unfold factoryCore at hs ⊢
  by_cases hb : knownBackends.contains b = true
  · rw [if_pos hb] at hs ⊢
    by_cases hfl : (parseFluids f).all validFluidName = true
    · rw [if_pos hfl] at hs ⊢
      refine ⟨{ backend := b, fluids := parseFluids f,
                fractions := List.replicate (parseFluids f).length
                  (1 / ((parseFluids f).length : ℚ)),
                phaseSpec := none, eqState := none, envelope := none }, ?_, rfl⟩
      simp [Registry.lookup, List.find?]
    · rw [if_neg hfl] at hs
      simp at hs
  · rw [if_neg hb] at hs
    simp at hs

/-- Claim C1: if AbstractState_update fails for any reason, the previously
stored EquilibriumState is left unchanged and remains queryable through
keyed output, and an object on which no update ever succeeded is clearly
unconverged (its stored state is none from creation on). -/
theorem C1_failed_update_preserves_state (σ : FlashSolver) (r : Registry)
    (h pairIdx : Int) (v1 v2 : CReal) (cap : Nat)
    (hf : (AbstractState_update σ r h pairIdx v1 v2 cap).errcode ≠ ErrorCode.success) :
    (AbstractState_update σ r h pairIdx v1 v2 cap).reg = r ∧
    (∀ paramIdx, keyedOutputCore (AbstractState_update σ r h pairIdx v1 v2 cap).reg h paramIdx
        = keyedOutputCore r h paramIdx) ∧
    (∀ b fl, (factoryCore r b fl).2.1 = .success →
      ∃ so, (factoryCore r b fl).1.lookup (factoryCore r b fl).2.2 = some so ∧
        so.eqState = none) := by
  have hcore : (updateCore σ r h pairIdx v1 v2).1 = r :=
    updateCore_fail_preserves σ r h pairIdx v1 v2 hf
  refine ⟨hcore, ?_, ?_⟩
  · intro paramIdx
    show keyedOutputCore (updateCore σ r h pairIdx v1 v2).1 h paramIdx = _
    rw [hcore]
  · intro b fl hsf
    exact factory_fresh r b fl hsf

/-- Witness for claim C1 on a concrete failing update (dead handle 5). -/
theorem C1_witness :
    ((AbstractState_update demoSolver Registry.empty 5 4 (.finite 1) (.finite 300) 8).errcode
        ≠ ErrorCode.success) ∧
    ((AbstractState_update demoSolver Registry.empty 5 4 (.finite 1) (.finite 300) 8).reg
        = Registry.empty ∧
     (∀ paramIdx, keyedOutputCore
          (AbstractState_update demoSolver Registry.empty 5 4 (.finite 1) (.finite 300) 8).reg
          5 paramIdx = keyedOutputCore Registry.empty 5 paramIdx) ∧
     (∀ b fl, (factoryCore Registry.empty b fl).2.1 = .success →
       ∃ so, (factoryCore Registry.empty b fl).1.lookup
           (factoryCore Registry.empty b fl).2.2 = some so ∧ so.eqState = none)) :=
  ⟨by decide,
   C1_failed_update_preserves_state demoSolver Registry.empty 5 4 (.finite 1) (.finite 300) 8
     (by decide)⟩

/-- Claim C2: every handle-based operation on a handle that does not map to
a live object fails with InvalidHandle and performs no mutation of the
registry or of any object, and a successful free removes the handle, so a
second free of the same handle is itself an InvalidHandle failure, never a
crash (all operations are total functions of the model). -/
theorem C2_invalid_handle_rejected (σ : FlashSolver) (δ : DerivOracle) (τ : Tracer)
    (r : Registry) (h : Int) (hinv : r.lookup h = none) :
    freeCore r h = (r, .invalidHandle) ∧
    (∀ pairIdx v1 v2, updateCore σ r h pairIdx v1 v2 = (r, .invalidHandle)) ∧
    (∀ paramIdx, keyedOutputCore r h paramIdx = (.invalidHandle, 0)) ∧
    (∀ fr, setFractionsCore r h fr = (r, .invalidHandle)) ∧
    (∀ a b c, firstPartialDerivCore δ r h a b c = (.invalidHandle, 0)) ∧
    (∀ lvl, buildPhaseEnvelopeCore τ r h lvl = (r, .invalidHandle)) ∧
    (∀ len, getPhaseEnvelopeDataCore r h len = (.invalidHandle, .empty)) ∧
    (∀ len mc, getPhaseEnvelopeDataCheckedCore r h len mc = (.invalidHandle, .empty, 0, 0)) ∧
    (∀ pairIdx v1s v2s outs, batchCore σ r h pairIdx v1s v2s outs = (r, .invalidHandle, [])) ∧
    (∀ pairIdx v1s v2s outIdx, update_and_1_outCore σ r h pairIdx v1s v2s outIdx
      = (r, .invalidHandle, [])) ∧
    (∀ pairIdx v1s v2s outIdxs, update_and_5_outCore σ r h pairIdx v1s v2s outIdxs
      = (r, .invalidHandle, [])) ∧
    (∀ pairIdx v1s v2s, update_and_common_outCore σ r h pairIdx v1s v2s
      = (r, .invalidHandle, [])) ∧
    (∀ (r2 : Registry) (so2 : StateObject), r2.lookup h = some so2 →
      (freeCore r2 h).1.lookup h = none) := by
  refine ⟨by simp [freeCore, hinv], ?_, ?_, ?_, ?_, ?_, ?_, ?_, ?_, ?_, ?_, ?_, ?_⟩
  · intro pairIdx v1 v2
    simp [updateCore, hinv]
  · intro paramIdx
    simp [keyedOutputCore, hinv]
  · intro fr
    simp [setFractionsCore, hinv]
  · intro a b c
    simp [firstPartialDerivCore, hinv]
  · intro lvl
    simp [buildPhaseEnvelopeCore, hinv]
  · intro len
    simp [getPhaseEnvelopeDataCore, hinv]
  · intro len mc
    simp [getPhaseEnvelopeDataCheckedCore, hinv]
  · intro pairIdx v1s v2s outs
    simp [batchCore, hinv]
  · intro pairIdx v1s v2s outIdx
    simp [update_and_1_outCore, hinv]
  · intro pairIdx v1s v2s outIdxs
    simp [update_and_5_outCore, hinv]
  · intro pairIdx v1s v2s
    simp [update_and_common_outCore, batchCore, hinv]
  · intro r2 so2 h2
    simp only [freeCore, h2]
    exact lookup_erase r2 h

/-- Witness for claim C2 at the never-issued handle 0 of the empty
registry. -/
theorem C2_witness :
    (Registry.empty.lookup 0 = none) ∧
    (freeCore Registry.empty 0 = (Registry.empty, .invalidHandle) ∧
     (∀ pairIdx v1 v2, updateCore demoSolver Registry.empty 0 pairIdx v1 v2
        = (Registry.empty, .invalidHandle)) ∧
     (∀ paramIdx, keyedOutputCore Registry.empty 0 paramIdx = (.invalidHandle, 0)) ∧
     (∀ fr, setFractionsCore Registry.empty 0 fr = (Registry.empty, .invalidHandle)) ∧
     (∀ a b c, firstPartialDerivCore demoDeriv Registry.empty 0 a b c = (.invalidHandle, 0)) ∧
     (∀ lvl, buildPhaseEnvelopeCore demoTracer Registry.empty 0 lvl
        = (Registry.empty, .invalidHandle)) ∧
     (∀ len, getPhaseEnvelopeDataCore Registry.empty 0 len = (.invalidHandle, .empty)) ∧
     (∀ len mc, getPhaseEnvelopeDataCheckedCore Registry.empty 0 len mc
        = (.invalidHandle, .empty, 0, 0)) ∧
     (∀ pairIdx v1s v2s outs, batchCore demoSolver Registry.empty 0 pairIdx v1s v2s outs
        = (Registry.empty, .invalidHandle, [])) ∧
     (∀ pairIdx v1s v2s outIdx, update_and_1_outCore demoSolver Registry.empty 0 pairIdx
         v1s v2s outIdx = (Registry.empty, .invalidHandle, [])) ∧
     (∀ pairIdx v1s v2s outIdxs, update_and_5_outCore demoSolver Registry.empty 0 pairIdx
         v1s v2s outIdxs = (Registry.empty, .invalidHandle, [])) ∧
     (∀ pairIdx v1s v2s, update_and_common_outCore demoSolver Registry.empty 0 pairIdx
         v1s v2s = (Registry.empty, .invalidHandle, [])) ∧
     (∀ (r2 : Registry) (so2 : StateObject), r2.lookup 0 = some so2 →
       (freeCore r2 0).1.lookup 0 = none)) :=
  ⟨rfl, C2_invalid_handle_rejected demoSolver demoDeriv demoTracer Registry.empty 0 rfl⟩

/-- Claim C3: on failure the error channel writes a non-zero code and a
message truncated to fit the buffer, zero-terminated within capacity and
never longer than the capacity (a zero capacity receives nothing); on
success it writes code 0 and leaves the buffer empty; and every modelled
boundary operation routes its buffer through this one channel. -/
theorem C3_error_channel_contract (c : ErrorCode) (cap : Nat)
    (hc : c ≠ ErrorCode.success) (hcap : 0 < cap) :
    c.toLong ≠ 0 ∧
    (finishBuffer c cap).length ≤ cap ∧
    (finishBuffer c cap).getLast? = some 0 ∧
    (∀ c2 : ErrorCode, finishBuffer c2 0 = []) ∧
    ErrorCode.success.toLong = 0 ∧
    (∀ cap2, finishBuffer .success cap2 = []) ∧
    (∀ σ r h pi v1 v2 cap2, (AbstractState_update σ r h pi v1 v2 cap2).buffer
        = finishBuffer (AbstractState_update σ r h pi v1 v2 cap2).errcode cap2) ∧
    (∀ r b f cap2, (AbstractState_factory r b f cap2).buffer
        = finishBuffer (AbstractState_factory r b f cap2).errcode cap2) ∧
    (∀ r h cap2, (AbstractState_free r h cap2).buffer
        = finishBuffer (AbstractState_free r h cap2).errcode cap2) ∧
    (∀ r h p cap2, (AbstractState_keyed_output r h p cap2).buffer
        = finishBuffer (AbstractState_keyed_output r h p cap2).errcode cap2) := by
  have hfb : finishBuffer c cap = c.messageBytes.take (cap - 1) ++ [0] := by
    unfold finishBuffer writeMessage
    rw [if_neg hc, if_neg (Nat.pos_iff_ne_zero.mp hcap)]
  refine ⟨?_, ?_, ?_, ?_, rfl, fun cap2 => rfl, ?_, ?_, ?_, ?_⟩
  · cases c <;> first | exact absurd rfl hc | decide
  · rw [hfb]
    simp only [List.length_append, List.length_take, List.length_singleton]
    omega
  · rw [hfb]
    simp
  · intro c2
    simp [finishBuffer, writeMessage, ite_self]
  · intro σ r h pi v1 v2 cap2
    rfl
  · intro r b f cap2
    rfl
  · intro r h cap2
    rfl
  · intro r h p cap2
    rfl

/-- Witness for claim C3 at the concrete code InvalidHandle and capacity 8. -/
theorem C3_witness :
    (ErrorCode.invalidHandle ≠ ErrorCode.success) ∧ (0 < 8) ∧
    (ErrorCode.invalidHandle.toLong ≠ 0 ∧
     (finishBuffer .invalidHandle 8).length ≤ 8 ∧
     (finishBuffer .invalidHandle 8).getLast? = some 0 ∧
     (∀ c2 : ErrorCode, finishBuffer c2 0 = []) ∧
     ErrorCode.success.toLong = 0 ∧
     (∀ cap2, finishBuffer .success cap2 = []) ∧
     (∀ σ r h pi v1 v2 cap2, (AbstractState_update σ r h pi v1 v2 cap2).buffer
         = finishBuffer (AbstractState_update σ r h pi v1 v2 cap2).errcode cap2) ∧
     (∀ r b f cap2, (AbstractState_factory r b f cap2).buffer
         = finishBuffer (AbstractState_factory r b f cap2).errcode cap2) ∧
     (∀ r h cap2, (AbstractState_free r h cap2).buffer
         = finishBuffer (AbstractState_free r h cap2).errcode cap2) ∧
     (∀ r h p cap2, (AbstractState_keyed_output r h p cap2).buffer
         = finishBuffer (AbstractState_keyed_output r h p cap2).errcode cap2)) :=
  ⟨by decide, by decide, C3_error_channel_contract .invalidHandle 8 (by decide) (by decide)⟩

/-- Claim C4: keyed output, derivative and curve operations fail with
NotUpdated whenever the object holds no converged state: a freshly created
object is in that condition, and a successful set_fractions puts the object
back into it by invalidating the cached state, so a subsequent keyed output
without a new update fails with NotUpdated. -/
theorem C4_not_updated_guard (δ : DerivOracle) (τ : Tracer) (r : Registry) (h : Int)
    (so : StateObject) (hl : r.lookup h = some so) (hn : so.eqState = none) :
    (∀ paramIdx, keyedOutputCore r h paramIdx = (.notUpdated, 0)) ∧
    (∀ a b c, firstPartialDerivCore δ r h a b c = (.notUpdated, 0)) ∧
    (∀ lvl, buildPhaseEnvelopeCore τ r h lvl = (r, .notUpdated)) ∧
    (∀ b f, (factoryCore r b f).2.1 = .success →
      ∃ so2, (factoryCore r b f).1.lookup (factoryCore r b f).2.2 = some so2 ∧
        so2.eqState = none) ∧
    (∀ (r2 : Registry) (h2 : Int) (so2 : StateObject) (fr : List ℚ),
      r2.lookup h2 = some so2 →
      (setFractionsCore r2 h2 fr).2 = .success →
      ∃ so3, (setFractionsCore r2 h2 fr).1.lookup h2 = some so3 ∧ so3.eqState = none ∧
        ∀ paramIdx, keyedOutputCore (setFractionsCore r2 h2 fr).1 h2 paramIdx
          = (.notUpdated, 0)) := by
  refine ⟨?_, ?_, ?_, ?_, ?_⟩
  · intro paramIdx
    simp [keyedOutputCore, hl, hn]
  · intro a b c
    simp [firstPartialDerivCore, hl, hn]
  · intro lvl
    simp [buildPhaseEnvelopeCore, hl, hn]
  · intro b f hsf
    exact factory_fresh r b f hsf
  · intro r2 h2 so2 fr hl2 hsucc
    unfold setFractionsCore at hsucc ⊢
    simp only [hl2] at hsucc ⊢
    by_cases hok : (fr.length == so2.fluids.length && validFractions fr) = true
    · rw [if_pos hok] at hsucc ⊢
      have hlook : (r2.setObj h2
          { so2 with fractions := fr, eqState := none, envelope := none }).lookup h2
          = some { so2 with fractions := fr, eqState := none, envelope := none } := by
        rw [lookup_setObj, hl2]
        rfl
      exact ⟨_, hlook, rfl, fun paramIdx => by simp [keyedOutputCore, hlook]⟩
    · rw [if_neg hok] at hsucc
      simp at hsucc

/-- Witness for claim C4 on the concrete unconverged object demoObj. -/
theorem C4_witness :
    (demoReg.lookup 0 = some demoObj) ∧ (demoObj.eqState = none) ∧
    ((∀ paramIdx, keyedOutputCore demoReg 0 paramIdx = (.notUpdated, 0)) ∧
     (∀ a b c, firstPartialDerivCore demoDeriv demoReg 0 a b c = (.notUpdated, 0)) ∧
     (∀ lvl, buildPhaseEnvelopeCore demoTracer demoReg 0 lvl = (demoReg, .notUpdated)) ∧
     (∀ b f, (factoryCore demoReg b f).2.1 = .success →
       ∃ so2, (factoryCore demoReg b f).1.lookup (factoryCore demoReg b f).2.2 = some so2 ∧
         so2.eqState = none) ∧
     (∀ (r2 : Registry) (h2 : Int) (so2 : StateObject) (fr : List ℚ),
       r2.lookup h2 = some so2 →
       (setFractionsCore r2 h2 fr).2 = .success →
       ∃ so3, (setFractionsCore r2 h2 fr).1.lookup h2 = some so3 ∧ so3.eqState = none ∧
         ∀ paramIdx, keyedOutputCore (setFractionsCore r2 h2 fr).1 h2 paramIdx
           = (.notUpdated, 0))) :=
  ⟨rfl, rfl, C4_not_updated_guard demoDeriv demoTracer demoReg 0 demoObj rfl rfl⟩

/-- Claim C5: in a batch update over N input points, every attempted entry
is populated with either its result or a per-entry none marker computed from
its own inputs alone (so one failure aborts nothing), the overall code is
the first error code encountered, and every non-failing entry carries
exactly the outputs an independent single update on the original object
would produce; update_and_1_out and update_and_common_out route through the
same machinery. -/
theorem C5_batch_independent_entries (σ : FlashSolver) (r : Registry) (h : Int)
    (pairIdx : Int) (so : StateObject) (pair : InputPair)
    (v1s v2s : List CReal) (outs : List PropertyKey)
    (hl : r.lookup h = some so) (hp : decodeInputPair pairIdx = some pair) :
    ((batchCore σ r h pairIdx v1s v2s outs).2.2.length = (v1s.zip v2s).length) ∧
    ((batchCore σ r h pairIdx v1s v2s outs).2.2
      = (v1s.zip v2s).map (fun vv =>
          match singleFlash σ so pair vv.1 vv.2 with
          | .ok es => some (outs.map (query es))
          | .error _ => none)) ∧
    ((batchCore σ r h pairIdx v1s v2s outs).2.1
      = firstErrorCode ((v1s.zip v2s).map
          (fun vv => entryCode (singleFlash σ so pair vv.1 vv.2)))) ∧
    (∀ vv ∈ v1s.zip v2s, ∀ es, singleFlash σ so pair vv.1 vv.2 = .ok es →
      updateCore σ r h pairIdx vv.1 vv.2
        = (r.setObj h { so with eqState := some es }, .success) ∧
      (∀ k ∈ outs, keyedOutputCore (r.setObj h { so with eqState := some es }) h
          (encodeParam k) = (.success, query es k))) ∧
    (∀ outIdx k, decodeParam outIdx = some k →
      update_and_1_outCore σ r h pairIdx v1s v2s outIdx
        = ((batchCore σ r h pairIdx v1s v2s [k]).1,
           (batchCore σ r h pairIdx v1s v2s [k]).2.1,
           (batchCore σ r h pairIdx v1s v2s [k]).2.2.map
             (fun o => o.map (fun qs => qs.headD 0)))) ∧
    (update_and_common_outCore σ r h pairIdx v1s v2s
      = batchCore σ r h pairIdx v1s v2s commonOutKeys) := by
  have hmap : (batchCore σ r h pairIdx v1s v2s outs).2.2
      = (v1s.zip v2s).map (fun vv =>
          match singleFlash σ so pair vv.1 vv.2 with
          | .ok es => some (outs.map (query es))
          | .error _ => none) := by
    simp only [batchCore, hl, hp, List.map_map]
    rfl
  refine ⟨?_, hmap, ?_, ?_, ?_, rfl⟩
  · rw [hmap, List.length_map]
  · simp only [batchCore, hl, hp, List.map_map]
    rfl
  · intro vv hvv es hok
    constructor
    · simp [updateCore, hl, hp, hok]
    · intro k hk
      have hlook : (r.setObj h { so with eqState := some es }).lookup h
          = some { so with eqState := some es } := by
        rw [lookup_setObj, hl]
        rfl
      simp [keyedOutputCore, hlook, decode_encode]
  · intro outIdx k hdec
    simp only [update_and_1_outCore, hl, hdec]

/-- Witness for claim C5 on a concrete two-point batch whose second entry
has a non-finite input. -/
theorem C5_witness :
    (demoReg.lookup 0 = some demoObj) ∧ (decodeInputPair 4 = some .DmolarT_inputs) ∧
    (((batchCore demoSolver demoReg 0 4 [.finite 40, .nan] [.finite 300, .finite 300]
        [.iP]).2.2.length
        = (([.finite 40, .nan] : List CReal).zip
            ([.finite 300, .finite 300] : List CReal)).length) ∧
     ((batchCore demoSolver demoReg 0 4 [.finite 40, .nan] [.finite 300, .finite 300]
        [.iP]).2.2
       = (([.finite 40, .nan] : List CReal).zip
            ([.finite 300, .finite 300] : List CReal)).map (fun vv =>
           match singleFlash demoSolver demoObj .DmolarT_inputs vv.1 vv.2 with
           | .ok es => some (([PropertyKey.iP] : List PropertyKey).map (query es))
           | .error _ => none)) ∧
     ((batchCore demoSolver demoReg 0 4 [.finite 40, .nan] [.finite 300, .finite 300]
        [.iP]).2.1
       = firstErrorCode ((([.finite 40, .nan] : List CReal).zip
            ([.finite 300, .finite 300] : List CReal)).map
           (fun vv => entryCode (singleFlash demoSolver demoObj .DmolarT_inputs vv.1 vv.2)))) ∧
     (∀ vv ∈ ([.finite 40, .nan] : List CReal).zip
          ([.finite 300, .finite 300] : List CReal),
       ∀ es, singleFlash demoSolver demoObj .DmolarT_inputs vv.1 vv.2 = .ok es →
       updateCore demoSolver demoReg 0 4 vv.1 vv.2
         = (demoReg.setObj 0 { demoObj with eqState := some es }, .success) ∧
       (∀ k ∈ ([PropertyKey.iP] : List PropertyKey),
         keyedOutputCore (demoReg.setObj 0 { demoObj with eqState := some es }) 0
           (encodeParam k) = (.success, query es k))) ∧
     (∀ outIdx k, decodeParam outIdx = some k →
       update_and_1_outCore demoSolver demoReg 0 4 [.finite 40, .nan]
           [.finite 300, .finite 300] outIdx
         = ((batchCore demoSolver demoReg 0 4 [.finite 40, .nan] [.finite 300, .finite 300]
              [k]).1,
            (batchCore demoSolver demoReg 0 4 [.finite 40, .nan] [.finite 300, .finite 300]
              [k]).2.1,
            (batchCore demoSolver demoReg 0 4 [.finite 40, .nan] [.finite 300, .finite 300]
              [k]).2.2.map (fun o => o.map (fun qs => qs.headD 0)))) ∧
     (update_and_common_outCore demoSolver demoReg 0 4 [.finite 40, .nan]
         [.finite 300, .finite 300]
       = batchCore demoSolver demoReg 0 4 [.finite 40, .nan] [.finite 300, .finite 300]
           commonOutKeys)) :=
  ⟨rfl, rfl,
   C5_batch_independent_entries demoSolver demoReg 0 4 demoObj .DmolarT_inputs
     [.finite 40, .nan] [.finite 300, .finite 300] [.iP] rfl rfl⟩

/-- A flash result is never an error carrying the success code. -/
theorem singleFlash_no_error_success (σ : FlashSolver) (so : StateObject)
    (pair : InputPair) (v1 v2 : CReal) :
    singleFlash σ so pair v1 v2 ≠ .error .success := by
  unfold singleFlash
  by_cases hv : (v1.validFor pair.keys.1 && v2.validFor pair.keys.2) = true
  · rw [if_pos hv]
    cases hσ : σ so.fluids so.fractions so.phaseSpec pair v1.toRat v2.toRat with
    | none => simp
    | some es =>
      by_cases ha : acceptState pair v1.toRat v2.toRat es = true
      · simp [ha]
      · simp [ha]
  · rw [if_neg hv]
    simp

/-- A successful flash happened on two finite inputs and its state passed
the convergence acceptance test. -/
theorem singleFlash_ok (σ : FlashSolver) (so : StateObject) (pair : InputPair)
    (v1 v2 : CReal) (es : EquilibriumState)
    (hs : singleFlash σ so pair v1 v2 = .ok es) :
    ∃ q1 q2, v1 = .finite q1 ∧ v2 = .finite q2 ∧ acceptState pair q1 q2 es = true := by
  unfold singleFlash at hs
  by_cases hv : (v1.validFor pair.keys.1 && v2.validFor pair.keys.2) = true
  · rw [if_pos hv] at hs
    rw [Bool.and_eq_true] at hv
    have hv1 : v1.validFor pair.keys.1 = true := hv.1
    have hv2 : v2.validFor pair.keys.2 = true := hv.2
    obtain ⟨q1, hq1⟩ : ∃ q, v1 = .finite q := by
      cases v1 with
      | finite q => exact ⟨q, rfl⟩
      | nan => simp [CReal.validFor] at hv1
      | posInf => simp [CReal.validFor] at hv1
      | negInf => simp [CReal.validFor] at hv1
    obtain ⟨q2, hq2⟩ : ∃ q, v2 = .finite q := by
      cases v2 with
      | finite q => exact ⟨q, rfl⟩
      | nan => simp [CReal.validFor] at hv2
      | posInf => simp [CReal.validFor] at hv2
      | negInf => simp [CReal.validFor] at hv2
    subst hq1
    subst hq2
    refine ⟨q1, q2, rfl, rfl, ?_⟩
    cases hσ : σ so.fluids so.fractions so.phaseSpec pair (CReal.finite q1).toRat
        (CReal.finite q2).toRat with
    | none =>
      simp only [hσ] at hs
      simp at hs
    | some es0 =>
      simp only [hσ] at hs
      by_cases ha : acceptState pair (CReal.finite q1).toRat (CReal.finite q2).toRat es0 = true
      · rw [if_pos ha] at hs
        simp only [Except.ok.injEq] at hs
        rw [← hs]
        exact ha
      · rw [if_neg ha] at hs
        simp at hs
  · rw [if_neg hv] at hs
    simp at hs

/-- What the acceptance test guarantees: both inputs reproduced within the
relative tolerance, and a two-phase state has its quality in the unit
interval. -/
theorem acceptState_spec (pair : InputPair) (q1 q2 : ℚ) (es : EquilibriumState)
    (ha : acceptState pair q1 q2 es = true) :
    relClose flashTol (query es pair.keys.1) q1 = true ∧
    relClose flashTol (query es pair.keys.2) q2 = true ∧
    (es.phase = .twophase → 0 ≤ es.quality ∧ es.quality ≤ 1) := by
  unfold acceptState at ha
  simp only [Bool.and_eq_true, Bool.or_eq_true, Bool.not_eq_true', beq_eq_false_iff_ne,
    ne_eq, decide_eq_true_eq] at ha
  obtain ⟨⟨h1, h2⟩, h3⟩ := ha
  refine ⟨h1, h2, ?_⟩
  intro hph
  cases h3 with
  | inl hne => exact absurd hph hne
  | inr hq => exact hq

/-- Claim C6: after every successful update, querying the two input
properties of the pair back from the stored EquilibriumState through keyed
output reproduces the two requested values within the solver tolerance, and
at the phase boundary the vapor quality lies in the unit interval. -/
theorem C6_roundtrip (σ : FlashSolver) (r : Registry) (h : Int) (pairIdx : Int)
    (pair : InputPair) (v1 v2 : CReal)
    (hp : decodeInputPair pairIdx = some pair)
    (hsucc : (updateCore σ r h pairIdx v1 v2).2 = .success) :
    ∃ (so : StateObject) (es : EquilibriumState) (q1 q2 : ℚ),
      r.lookup h = some so ∧ v1 = .finite q1 ∧ v2 = .finite q2 ∧
      (updateCore σ r h pairIdx v1 v2).1.lookup h = some { so with eqState := some es } ∧
      relClose flashTol (query es pair.keys.1) q1 = true ∧
      relClose flashTol (query es pair.keys.2) q2 = true ∧
      (es.phase = .twophase → 0 ≤ es.quality ∧ es.quality ≤ 1) ∧
      keyedOutputCore (updateCore σ r h pairIdx v1 v2).1 h (encodeParam pair.keys.1)
        = (.success, query es pair.keys.1) ∧
      keyedOutputCore (updateCore σ r h pairIdx v1 v2).1 h (encodeParam pair.keys.2)
        = (.success, query es pair.keys.2) := by
  unfold updateCore at hsucc ⊢
  cases hr : r.lookup h with
  | none => simp [hr] at hsucc
  | some so =>
    simp only [hr, hp] at hsucc ⊢
    cases hs : singleFlash σ so pair v1 v2 with
    | error c =>
      simp only [hs] at hsucc
      exact absurd (hsucc ▸ hs) (singleFlash_no_error_success σ so pair v1 v2)
    | ok es =>
      simp only [hs]
      obtain ⟨q1, q2, hv1, hv2, hacc⟩ := singleFlash_ok σ so pair v1 v2 es hs
      obtain ⟨hc1, hc2, hq⟩ := acceptState_spec pair q1 q2 es hacc
      have hlook : (r.setObj h { so with eqState := some es }).lookup h
          = some { so with eqState := some es } := by
        rw [lookup_setObj, hr]
        rfl
      exact ⟨so, es, q1, q2, rfl, hv1, hv2, hlook, hc1, hc2, hq,
        by simp [keyedOutputCore, hlook, decode_encode],
        by simp [keyedOutputCore, hlook, decode_encode]⟩

/-- Witness for claim C6 on a concrete successful density-temperature
update. -/
theorem C6_witness :
    (decodeInputPair 4 = some InputPair.DmolarT_inputs) ∧
    ((updateCore demoSolver demoReg 0 4 (.finite 40) (.finite 300)).2 = .success) ∧
    (∃ (so : StateObject) (es : EquilibriumState) (q1 q2 : ℚ),
      demoReg.lookup 0 = some so ∧ (CReal.finite 40) = .finite q1 ∧
      (CReal.finite 300) = .finite q2 ∧
      (updateCore demoSolver demoReg 0 4 (.finite 40) (.finite 300)).1.lookup 0
        = some { so with eqState := some es } ∧
      relClose flashTol (query es InputPair.DmolarT_inputs.keys.1) q1 = true ∧
      relClose flashTol (query es InputPair.DmolarT_inputs.keys.2) q2 = true ∧
      (es.phase = .twophase → 0 ≤ es.quality ∧ es.quality ≤ 1) ∧
      keyedOutputCore (updateCore demoSolver demoReg 0 4 (.finite 40) (.finite 300)).1 0
        (encodeParam InputPair.DmolarT_inputs.keys.1)
        = (.success, query es InputPair.DmolarT_inputs.keys.1) ∧
      keyedOutputCore (updateCore demoSolver demoReg 0 4 (.finite 40) (.finite 300)).1 0
        (encodeParam InputPair.DmolarT_inputs.keys.2)
        = (.success, query es InputPair.DmolarT_inputs.keys.2)) :=
  ⟨rfl,
   by norm_num [updateCore, demoReg, demoObj, Registry.lookup, List.find?, decodeInputPair,
     singleFlash, CReal.validFor, keyPositiveOk, keyRequiresPositive, CReal.toRat, demoSolver,
     setKey, baseState, acceptState, relClose, ratAbs, ratMax, flashTol, query, InputPair.keys],
   C6_roundtrip demoSolver demoReg 0 4 .DmolarT_inputs (.finite 40) (.finite 300) rfl
     (by norm_num [updateCore, demoReg, demoObj, Registry.lookup, List.find?, decodeInputPair,
       singleFlash, CReal.validFor, keyPositiveOk, keyRequiresPositive, CReal.toRat, demoSolver,
       setKey, baseState, acceptState, relClose, ratAbs, ratMax, flashTol, query,
       InputPair.keys])⟩

/-- Claim C7: with a built phase envelope, retrieval with a declared length
different from the stored sample count fails with SizeMismatch and writes no
data; the checkedMemory variant succeeds for every declared length and
maxComponents, writes at most the declared capacities (truncating instead of
overrunning), and reports the stored sample count and component count
through its out-parameters. -/
theorem C7_envelope_size_discipline (r : Registry) (h : Int) (so : StateObject)
    (env : PhaseEnvelope) (len maxComp : Int)
    (hl : r.lookup h = some so) (he : so.envelope = some env) :
    (len ≠ (env.points.length : Int) →
      getPhaseEnvelopeDataCore r h len = (.sizeMismatch, .empty)) ∧
    (getPhaseEnvelopeDataCheckedCore r h len maxComp).1 = .success ∧
    (getPhaseEnvelopeDataCheckedCore r h len maxComp).2.1.T.length ≤ len.toNat ∧
    (getPhaseEnvelopeDataCheckedCore r h len maxComp).2.1.p.length ≤ len.toNat ∧
    (getPhaseEnvelopeDataCheckedCore r h len maxComp).2.1.rhomolar_vap.length ≤ len.toNat ∧
    (getPhaseEnvelopeDataCheckedCore r h len maxComp).2.1.rhomolar_liq.length ≤ len.toNat ∧
    (∀ xs ∈ (getPhaseEnvelopeDataCheckedCore r h len maxComp).2.1.x,
      xs.length ≤ maxComp.toNat) ∧
    (∀ ys ∈ (getPhaseEnvelopeDataCheckedCore r h len maxComp).2.1.y,
      ys.length ≤ maxComp.toNat) ∧
    (getPhaseEnvelopeDataCheckedCore r h len maxComp).2.2.1 = (env.points.length : Int) ∧
    (getPhaseEnvelopeDataCheckedCore r h len maxComp).2.2.2 = (env.ncomp : Int) := by
  have hchk : getPhaseEnvelopeDataCheckedCore r h len maxComp
      = (.success, envelopeDataOf (env.points.take len.toNat) (min maxComp.toNat env.ncomp),
         (env.points.length : Int), (env.ncomp : Int)) := by
    simp [getPhaseEnvelopeDataCheckedCore, hl, he]
  refine ⟨?_, ?_, ?_, ?_, ?_, ?_, ?_, ?_, ?_, ?_⟩
  · intro hne
    simp [getPhaseEnvelopeDataCore, hl, he, hne]
  · rw [hchk]
  · rw [hchk]
    simp [envelopeDataOf, List.length_take]
  · rw [hchk]
    simp [envelopeDataOf, List.length_take]
  · rw [hchk]
    simp [envelopeDataOf, List.length_take]
  · rw [hchk]
    simp [envelopeDataOf, List.length_take]
  · rw [hchk]
    intro xs hxs
    simp only [envelopeDataOf, List.mem_map] at hxs
    obtain ⟨pt, hpt, hxe⟩ := hxs
    rw [← hxe]
    simp [List.length_take]
  · rw [hchk]
    intro ys hys
    simp only [envelopeDataOf, List.mem_map] at hys
    obtain ⟨pt, hpt, hye⟩ := hys
    rw [← hye]
    simp [List.length_take]
  · rw [hchk]
  · rw [hchk]

/-- Witness for claim C7 on the concrete one-point envelope of demoEnvObj,
with declared length 5 and zero composition capacity. -/
theorem C7_witness :
    (demoEnvReg.lookup 0 = some demoEnvObj) ∧
    (demoEnvObj.envelope = some { points := [demoPoint], ncomp := 1 }) ∧
    (((5 : Int) ≠ (((PhaseEnvelope.mk [demoPoint] 1).points.length : Nat) : Int) →
       getPhaseEnvelopeDataCore demoEnvReg 0 5 = (.sizeMismatch, .empty)) ∧
     (getPhaseEnvelopeDataCheckedCore demoEnvReg 0 5 0).1 = .success ∧
     (getPhaseEnvelopeDataCheckedCore demoEnvReg 0 5 0).2.1.T.length ≤ (5 : Int).toNat ∧
     (getPhaseEnvelopeDataCheckedCore demoEnvReg 0 5 0).2.1.p.length ≤ (5 : Int).toNat ∧
     (getPhaseEnvelopeDataCheckedCore demoEnvReg 0 5 0).2.1.rhomolar_vap.length
       ≤ (5 : Int).toNat ∧
     (getPhaseEnvelopeDataCheckedCore demoEnvReg 0 5 0).2.1.rhomolar_liq.length
       ≤ (5 : Int).toNat ∧
     (∀ xs ∈ (getPhaseEnvelopeDataCheckedCore demoEnvReg 0 5 0).2.1.x,
       xs.length ≤ (0 : Int).toNat) ∧
     (∀ ys ∈ (getPhaseEnvelopeDataCheckedCore demoEnvReg 0 5 0).2.1.y,
       ys.length ≤ (0 : Int).toNat) ∧
     (getPhaseEnvelopeDataCheckedCore demoEnvReg 0 5 0).2.2.1
       = (((PhaseEnvelope.mk [demoPoint] 1).points.length : Nat) : Int) ∧
     (getPhaseEnvelopeDataCheckedCore demoEnvReg 0 5 0).2.2.2
       = (((PhaseEnvelope.mk [demoPoint] 1).ncomp : Nat) : Int)) :=
  ⟨rfl, rfl,
   C7_envelope_size_discipline demoEnvReg 0 demoEnvObj (PhaseEnvelope.mk [demoPoint] 1) 5 0
     rfl rfl⟩

/-- The powerpc assert handler never leaves its loop, whatever the step
count. -/
theorem assertRun_looping (n : Nat) : assertRun n = .looping := by
  induction n with
  | zero => rfl
  | succ k ih => simp [assertRun, assertStep, ih]

/-- Claim C8 counterexample: the powerpc __assert handler of CoolPropLib.h
lines 56 to 59 is still inside its while loop after one million execution
steps and has not returned, so not every call of the source returns in
bounded work. -/
theorem C8_counterexample :
    assertRun 1000000 = AssertState.looping ∧ assertReturnsWithin 1000000 = false := by
  constructor
  · exact assertRun_looping 1000000
  · unfold assertReturnsWithin
    rw [assertRun_looping]
    rfl

/-- Claim C8 (amended): flash convergence and curve tracing iterate through
the bounded-fuel loop shape, whose step count never exceeds its fuel, so
those modelled operations return for every input; but the powerpc __assert
handler declared in the header is an unconditional infinite loop that never
reaches its returned state, so not every operation in the source terminates. -/
theorem C8_bounded_iteration_except_assert :
    (∀ (step : ℚ → ℚ) (done : ℚ → Bool) (fuel : Nat) (x : ℚ),
      (boundedIterate step done fuel x).2 ≤ fuel) ∧
    (∀ n, assertRun n = AssertState.looping) ∧
    (∀ n, assertReturnsWithin n = false) := by
  refine ⟨?_, assertRun_looping, ?_⟩
  · intro step done fuel
    induction fuel with
    | zero =>
      intro x
      simp [boundedIterate]
    | succ k ih =>
      intro x
      unfold boundedIterate
      by_cases hd : done x = true
      · rw [if_pos hd]
        simp
      · rw [if_neg hd]
        show (boundedIterate step done k (step x)).2 + 1 ≤ k + 1
        exact Nat.succ_le_succ (ih (step x))
  · intro n
    unfold assertReturnsWithin
    rw [assertRun_looping]
    rfl

/-- Claim C9: the stateless entry points Props1SI, PropsSI and HAPropsSI
return a plain double and carry no errcode or message_buffer parameter, so
a failure can only be signalled through the returned value itself, unlike
the AbstractState operations whose declarations carry the explicit error
channel. -/
theorem C9_stateless_sentinel_only :
    Props1SI_decl.ret = CType.cdouble ∧
    PropsSI_decl.ret = CType.cdouble ∧
    HAPropsSI_decl.ret = CType.cdouble ∧
    mentionsErrorParams Props1SI_decl = false ∧
    mentionsErrorParams PropsSI_decl = false ∧
    mentionsErrorParams HAPropsSI_decl = false ∧
    hasErrorChannel Props1SI_decl = false ∧
    hasErrorChannel PropsSI_decl = false ∧
    hasErrorChannel HAPropsSI_decl = false ∧
    hasErrorChannel AbstractState_factory_decl = true ∧
    hasErrorChannel AbstractState_update_decl = true ∧
    hasErrorChannel AbstractState_free_decl = true ∧
    hasErrorChannel AbstractState_keyed_output_decl = true := by
  decide

/-- Claim C10: the global configuration setters return void and carry no
errcode or message_buffer parameter, so a call cannot report failure to the
caller at the call site. -/
theorem C10_config_setters_cannot_report :
    set_config_string_decl.ret = CType.cvoid ∧
    set_config_double_decl.ret = CType.cvoid ∧
    set_config_bool_decl.ret = CType.cvoid ∧
    mentionsErrorParams set_config_string_decl = false ∧
    mentionsErrorParams set_config_double_decl = false ∧
    mentionsErrorParams set_config_bool_decl = false ∧
    hasErrorChannel set_config_string_decl = false ∧
    hasErrorChannel set_config_double_decl = false ∧
    hasErrorChannel set_config_bool_decl = false := by
  decide

end CoolProp
